import Mathlib

/-!
Shallow embedding of the authentication and account-lifecycle core of the
concert ticket booking service (Express + Mongoose).  The definitions
translate the controllers in `src/controller/auth.controller.ts` and
`src/controller/user.ts`, the Mongoose user model (the version carrying the
verification/reset fields), the JWT helpers in `src/utils/index.ts`, and the
two Google OAuth verify callbacks.  External collaborators (bcryptjs,
jsonwebtoken, the document store) are modelled explicitly below.
-/

namespace Booking

/-! ### Model of the bcryptjs interface

`bcrypt.hash` is deterministic in this model (the salt is fixed) and keeps
the `$2b$<cost>$` header of real bcrypt output; `bcrypt.compare` recovers the
digest after the header, exactly as the library re-derives and compares.  The
properties the development relies on are the ones bcrypt provides: a hash is
never equal to its plaintext, and compare succeeds exactly on the plaintext
that was hashed. -/

def bcryptHash (cost : Nat) (s : String) : String :=
  ⟨'$' :: '2' :: 'b' :: '$' :: ((Nat.repr cost).data ++ '$' :: s.data)⟩

def bcryptCompare (plain h : String) : Bool :=
  match h.data with
  | '$' :: '2' :: 'b' :: '$' :: rest =>
    match rest.dropWhile (fun c => c != '$') with
    | '$' :: body => body == plain.data
    | _ => false
  | _ => false

theorem dropWhile_ne_dollar_append (xs ys : List Char) (h : ∀ x ∈ xs, x ≠ '$') :
    (xs ++ '$' :: ys).dropWhile (fun c => c != '$') = '$' :: ys := by
  induction xs with
  | nil => simp [List.dropWhile]
  | cons a as ih =>
    have ha : a ≠ '$' := h a (by simp)
    simp only [List.cons_append, List.dropWhile_cons]
    simp [ha, ih (fun x hx => h x (by simp [hx]))]

theorem bcryptCompare_hash (cost : Nat) (s : String)
    (hc : ∀ x ∈ (Nat.repr cost).data, x ≠ '$') :
    bcryptCompare s (bcryptHash cost s) = true := by
  have h1 := dropWhile_ne_dollar_append (Nat.repr cost).data s.data hc
  simp [bcryptCompare, bcryptHash, h1]

theorem bcryptCompare_hash_iff (cost : Nat) (s t : String)
    (hc : ∀ x ∈ (Nat.repr cost).data, x ≠ '$') :
    bcryptCompare t (bcryptHash cost s) = true ↔ t = s := by
  have h1 := dropWhile_ne_dollar_append (Nat.repr cost).data s.data hc
  obtain ⟨sd⟩ := s
  obtain ⟨td⟩ := t
  simp_all [bcryptCompare, bcryptHash]
  constructor
  · intro h; rw [h]
  · intro h; injection h with h; exact h.symm

theorem bcryptHash_ne (cost : Nat) (s : String) : bcryptHash cost s ≠ s := by
  intro h
  have hlen := congrArg (fun x => x.data.length) h
  simp [bcryptHash, List.length_append] at hlen
  omega

/-! ### Model of the Mongoose email setters (`trim: true`, `lowercase: true`)

Mongoose applies these setters both when a document is created/saved and when
an `email` filter is cast in a query such as `findOne({ email })`. -/

def isSpaceChar (c : Char) : Bool :=
  c == ' ' || c == '\t' || c == '\n' || c == '\r'

def trimChars (l : List Char) : List Char :=
  ((l.dropWhile isSpaceChar).reverse.dropWhile isSpaceChar).reverse

def normEmail (e : String) : String :=
  ⟨trimChars (e.data.map Char.toLower)⟩

/-! ### The registration email regex

`/^[\w-]+(\.[\w-]+)*@([\w-]+\.)+[a-zA-Z]{2,7}$/` from `register` in
`src/controller/auth.controller.ts`, implemented as a single-pass scanner:
dot-separated nonempty `[\w-]` segments, an `@`, then one or more nonempty
`[\w-]` labels each followed by a dot, ending in 2–7 letters. -/

def isWordDash (c : Char) : Bool := c.isAlphanum || c == '_' || c == '-'

def scanLocal : List Char → Nat → Option (List Char)
  | [], _ => none
  | c :: cs, n =>
    if c == '.' then (if n == 0 then none else scanLocal cs 0)
    else if c == '@' then (if n == 0 then none else some cs)
    else if isWordDash c then scanLocal cs (n + 1)
    else none

def scanDomain : List Char → Nat → Bool → Bool → Bool
  | [], n, alpha, hadDot => hadDot && alpha && decide (2 ≤ n) && decide (n ≤ 7)
  | c :: cs, n, alpha, hadDot =>
    if c == '.' then (if n == 0 then false else scanDomain cs 0 true true)
    else if isWordDash c then scanDomain cs (n + 1) (alpha && c.isAlpha) hadDot
    else false

def validEmail (e : String) : Bool :=
  match scanLocal e.data 0 with
  | none => false
  | some rest => scanDomain rest 0 true false

/-! ### Model of the jsonwebtoken interface and `src/utils/index.ts`

Times are milliseconds since the epoch.  `JWT_EXPIRES_DAY` is modelled as the
signing lifetime in milliseconds.  A signed token records its claims, the
secret it was signed with, and its expiry; `jwt.verify` distinguishes a bad
signature (also standing in for malformed input) from an expired token, as
the library does via `JsonWebTokenError` versus `TokenExpiredError`. -/

structure Env where
  jwtSecret : Option String
  jwtExpiresDay : Option Nat
deriving DecidableEq

inductive JwtClaims where
  | auth (userId : String) (role : String)
  | email (code : String)
deriving DecidableEq

structure Jwt where
  claims : JwtClaims
  secret : String
  iat : Nat
  exp : Nat
deriving DecidableEq

inductive JwtVerifyError where
  | invalidSignature
  | expired
deriving DecidableEq

def jwtVerify (secret : String) (now : Nat) (t : Jwt) : Except JwtVerifyError JwtClaims :=
  if t.secret ≠ secret then .error .invalidSignature
  else if t.exp ≤ now then .error .expired
  else .ok t.claims

/-- `generateToken` from `src/utils/index.ts`: throws when `JWT_SECRET` or
`JWT_EXPIRES_DAY` is unset, otherwise signs `{ userId, role }`. -/
def generateToken (env : Env) (now : Nat) (userId role : String) : Except String Jwt :=
  match env.jwtSecret, env.jwtExpiresDay with
  | some sec, some d =>
      .ok { claims := .auth userId role, secret := sec, iat := now, exp := now + d }
  | _, _ => .error "Required JWT environment variables are not set."

inductive VerifyTokenError where
  | configError (msg : String)
  | httpError (status : Nat) (msg : String)
deriving DecidableEq

/-- `verifyToken` from `src/utils/index.ts`: throws when `JWT_SECRET` is
unset; otherwise calls `jsonwebtoken.verify` and maps EVERY verification
failure — bad signature, malformed input, and expiry alike — to the single
operational error `createHttpError(403, '請重新登入')`. -/
def verifyToken (env : Env) (now : Nat) (t : Jwt) : Except VerifyTokenError JwtClaims :=
  match env.jwtSecret with
  | none => .error (.configError "JWT_SECRET environment variable is not set.")
  | some sec =>
    match jwtVerify sec now t with
    | .ok c => .ok c
    | .error _ => .error (.httpError 403 "請重新登入")

/-! ### The user document

Superset of the fields of the Mongoose user schema (the version with the
verification/reset fields, plus the `name`/`photo` fields of the older schema
used by the legacy Google strategy).  `id` models the ObjectId. -/

structure OAuthProvider where
  provider : String
  providerId : String
  accessToken : String
  refreshToken : String
  tokenExpiresAt : Nat
deriving DecidableEq

structure UserDoc where
  id : Nat
  email : String
  password : Option String := none
  role : String := "user"
  isEmailVerified : Bool := false
  verificationToken : Option String := none
  verificationTokenExpires : Option Nat := none
  passwordResetToken : Option String := none
  passwordResetExpires : Option Nat := none
  lastVerificationAttempt : Option Nat := none
  oauthProviders : List OAuthProvider := []
  firstName : Option String := none
  lastName : Option String := none
  phone : Option String := none
  birthday : Option Nat := none
  name : Option String := none
  avatar : Option String := none
  photo : Option String := none
deriving DecidableEq

/-- The `pre('save')` hook of the user schema: when the password path is
modified and present, it is replaced by its bcrypt hash at work factor 12. -/
def preSave (passwordModified : Bool) (u : UserDoc) : UserDoc :=
  if passwordModified then
    match u.password with
    | some p => { u with password := some (bcryptHash 12 p) }
    | none => u
  else u

/-! ### The document store

A list of user documents.  `findOne({ email })` casts the filter through the
schema setters (trim + lowercase) and returns the first match; saving a
document replaces every stored document carrying its id; `create` runs the
setters and the pre-save hook and appends. -/

def findOneByEmail (store : List UserDoc) (e : String) : Option UserDoc :=
  store.find? (fun u => u.email == normEmail e)

def storeSave (store : List UserDoc) (u : UserDoc) : List UserDoc :=
  store.map (fun v => if v.id == u.id then u else v)

def userCreate (store : List UserDoc) (u : UserDoc) : List UserDoc :=
  store ++ [preSave true { u with email := normEmail u.email }]

def hasGoogleLink (u : UserDoc) (pid : String) : Bool :=
  u.oauthProviders.any (fun o => o.provider == "google" && o.providerId == pid)

def findByProviderId (store : List UserDoc) (pid : String) : Option UserDoc :=
  store.find? (fun u => hasGoogleLink u pid)

/-! ### Responses

One record covering every field the embedded handlers put in a response
body (plus the HTTP status).  Thrown `createHttpError`s surface through the
app-level error middleware with their status and message; unexpected throws
surface as the generic 500 `SYSTEM_ERROR` response. -/

structure ApiResponse where
  status : Nat
  success : Bool
  message : String
  errorCode : Option String := none
  email : Option String := none
  remainingSeconds : Option Nat := none
  token : Option Jwt := none
  userId : Option Nat := none
  userRole : Option String := none
  userVerified : Option Bool := none
deriving DecidableEq

def errResp (status : Nat) (msg : String) : ApiResponse :=
  { status := status, success := false, message := msg }

def systemErrorResp : ApiResponse :=
  { status := 500, success := false, message := "系統發生錯誤", errorCode := some "SYSTEM_ERROR" }

/-! ### `register` (`src/controller/auth.controller.ts`)

The 6-digit code produced by `Math.random` inside `createVerificationToken`
and the fresh ObjectId are passed in as parameters.  `createVerificationToken`
sets the expiry (10 minutes), the last-attempt timestamp, and the bcrypt
hash (work factor 1) of the code, then saves. -/

def register (env : Env) (now : Nat) (newId : Nat) (code : String)
    (store : List UserDoc) (email password : String)
    (firstName lastName phone : Option String) (birthday : Option Nat) :
    ApiResponse × List UserDoc :=
  if email = "" ∨ password = "" then (errResp 400 "請提供所有必要欄位", store)
  else if ¬ validEmail email then (errResp 400 "請提供有效的電子郵件地址", store)
  else if password.length < 6 then (errResp 400 "密碼長度至少為6個字符", store)
  else
    match findOneByEmail store email with
    | some _ => (errResp 400 "此電子郵件已被註冊", store)
    | none =>
      let u0 : UserDoc := preSave true
        { id := newId, email := normEmail email, password := some password,
          firstName := firstName, lastName := lastName, phone := phone,
          birthday := birthday, role := "user", isEmailVerified := false,
          oauthProviders := [] }
      let u1 : UserDoc :=
        { u0 with verificationTokenExpires := some (now + 600000),
                  lastVerificationAttempt := some now,
                  verificationToken := some (bcryptHash 1 code) }
      let store1 := storeSave (store ++ [u0]) u1
      match generateToken env now (toString newId) u1.role with
      | .error _ => (systemErrorResp, store1)
      | .ok t =>
        ({ status := 201, success := true, message := "註冊成功，請查收驗證碼郵件",
           token := some t, userId := some newId, userRole := some u1.role,
           userVerified := some u1.isEmailVerified }, store1)

/-- `login` (`src/controller/auth.controller.ts`): uniform
`INVALID_CREDENTIALS` for unknown email and wrong password, `OAUTH_USER` when
no password hash exists, `EMAIL_NOT_VERIFIED` when the flag is false, and a
session token on success. -/
def login (env : Env) (now : Nat) (store : List UserDoc) (email password : String) :
    ApiResponse :=
  if email = "" ∨ password = "" then errResp 400 "請提供電子郵件和密碼"
  else
    match findOneByEmail store email with
    | none =>
      { errResp 401 "帳號或密碼錯誤" with errorCode := some "INVALID_CREDENTIALS" }
    | some user =>
      match user.password with
      | none =>
        { errResp 401 "此帳號使用第三方登入，請使用對應的登入方式" with
            errorCode := some "OAUTH_USER" }
      | some ph =>
        if bcryptCompare password ph then
          if user.isEmailVerified then
            match generateToken env now (toString user.id) user.role with
            | .error _ => systemErrorResp
            | .ok t =>
              { status := 200, success := true, message := "", token := some t,
                userId := some user.id, userRole := some user.role,
                userVerified := some user.isEmailVerified }
          else
            { errResp 403 "請先驗證您的電子郵件" with
                errorCode := some "EMAIL_NOT_VERIFIED", email := some user.email }
        else
          { errResp 401 "帳號或密碼錯誤" with errorCode := some "INVALID_CREDENTIALS" }

/-- The legacy `login` (`src/controller/user.ts`): 404 when the lookup
fails or the account has no password hash, 400 on a wrong password, and a
session token on success — with no check of `isEmailVerified` at all. -/
def userLogin (env : Env) (now : Nat) (store : List UserDoc) (email password : String) :
    ApiResponse :=
  match findOneByEmail store email with
  | none => errResp 404 "此使用者不存在"
  | some user =>
    match user.password with
    | none => errResp 404 "此使用者不存在"
    | some ph =>
      if bcryptCompare password ph then
        match generateToken env now (toString user.id) user.role with
        | .error _ => systemErrorResp
        | .ok t =>
          { status := 200, success := true, message := "", token := some t,
            userId := some user.id, userRole := some user.role,
            userVerified := some user.isEmailVerified }
      else errResp 400 "密碼錯誤"

/-- `verifyEmail` (`src/controller/auth.controller.ts`): absent code or
expiry → `無效的驗證請求`; past expiry → `驗證碼已過期`; bcrypt mismatch →
`驗證碼錯誤`; on success sets the verified flag and clears both fields. -/
def verifyEmail (now : Nat) (store : List UserDoc) (email code : String) :
    ApiResponse × List UserDoc :=
  match findOneByEmail store email with
  | none => (errResp 404 "找不到此用戶", store)
  | some user =>
    match user.verificationToken, user.verificationTokenExpires with
    | some vt, some vte =>
      if vte < now then (errResp 400 "驗證碼已過期", store)
      else if bcryptCompare code vt then
        let u1 : UserDoc :=
          { user with isEmailVerified := true, verificationToken := none,
                      verificationTokenExpires := none }
        ({ status := 200, success := true, message := "電子郵件驗證成功" },
         storeSave store u1)
      else (errResp 400 "驗證碼錯誤", store)
    | _, _ => (errResp 400 "無效的驗證請求", store)

/-- `resendVerification` (`src/controller/auth.controller.ts`).  The
cooldown remainder is `Math.ceil((600000 - elapsed) / 1000)`. -/
def remainingSecs (now t : Nat) : Nat :=
  (((600000 : Int) - ((now : Int) - (t : Int))).toNat + 999) / 1000

def resendVerification (now : Nat) (code : String) (store : List UserDoc)
    (email : String) : ApiResponse × List UserDoc :=
  match findOneByEmail store email with
  | none => (errResp 404 "找不到此用戶", store)
  | some user =>
    if user.isEmailVerified then (errResp 400 "此電子郵件已驗證", store)
    else
      let issue : ApiResponse × List UserDoc :=
        let u1 : UserDoc :=
          { user with verificationTokenExpires := some (now + 600000),
                      lastVerificationAttempt := some now,
                      verificationToken := some (bcryptHash 1 code) }
        let s1 := storeSave store u1
        let u2 : UserDoc := { u1 with lastVerificationAttempt := some now }
        ({ status := 200, success := true, message := "驗證碼已重新發送" },
         storeSave s1 u2)
      match user.lastVerificationAttempt with
      | some t =>
        if (now : Int) - (t : Int) < 600000 then
          ({ errResp 400 "請稍後再試" with
               remainingSeconds := some (remainingSecs now t) }, store)
        else issue
      | none => issue

/-- `requestPasswordReset` (`src/controller/auth.controller.ts`): requires a
registered, verified account, applies the same 10-minute cooldown on the
shared `lastVerificationAttempt` field, then stamps the attempt time and
stores the hashed reset code with its 10-minute expiry.  The mail dispatch
is a side effect outside the model (its failure path leaves the persisted
code in place). -/
def requestPasswordReset (now : Nat) (code : String) (store : List UserDoc)
    (email : String) : ApiResponse × List UserDoc :=
  match findOneByEmail store email with
  | none => (errResp 400 "該信箱未註冊", store)
  | some user =>
    if user.isEmailVerified then
      let issue : ApiResponse × List UserDoc :=
        let u1 : UserDoc := { user with lastVerificationAttempt := some now }
        let s1 := storeSave store u1
        let u2 : UserDoc :=
          { u1 with passwordResetExpires := some (now + 600000),
                    passwordResetToken := some (bcryptHash 1 code) }
        let s2 := storeSave s1 u2
        ({ status := 200, success := true, message := "密碼重置郵件已發送" },
         storeSave s2 u2)
      match user.lastVerificationAttempt with
      | some t =>
        if (now : Int) - (t : Int) < 600000 then
          ({ errResp 400 "請稍後再試" with
               remainingSeconds := some (remainingSecs now t) }, store)
        else issue
      | none => issue
    else (errResp 400 "請先驗證您的郵箱", store)

/-- `resetPassword` (`src/controller/auth.controller.ts`): validates the new
password length first, then requires a stored reset code and expiry, checks
the expiry, compares the code, and finally replaces the password (hashed by
the pre-save hook) while clearing the reset fields. -/
def resetPassword (now : Nat) (store : List UserDoc)
    (email code newPassword : String) : ApiResponse × List UserDoc :=
  if newPassword = "" ∨ newPassword.length < 6 then
    (errResp 400 "密碼長度至少為6個字符", store)
  else
    match findOneByEmail store email with
    | none => (errResp 404 "找不到此用戶", store)
    | some user =>
      match user.passwordResetToken, user.passwordResetExpires with
      | some rt, some rte =>
        if rte < now then (errResp 400 "重置密碼連結已過期", store)
        else if bcryptCompare code rt then
          let u1 : UserDoc := preSave true
            { user with password := some newPassword, passwordResetToken := none,
                        passwordResetExpires := none }
          ({ status := 200, success := true, message := "密碼重置成功" },
           storeSave store u1)
        else (errResp 400 "驗證碼錯誤", store)
      | _, _ => (errResp 400 "無效的重置密碼請求", store)

/-! ### The Google OAuth verify callbacks -/

inductive OAuthResult where
  | success (userId : Nat)
  | failure (msg : String)
deriving DecidableEq

def oauthLink (pid accessToken refreshToken : String) (now : Nat) : OAuthProvider :=
  { provider := "google", providerId := pid, accessToken := accessToken,
    refreshToken := refreshToken, tokenExpiresAt := now + 3600000 }

/-- The current Google strategy verify callback (the routes file that wires
the full verification/reset endpoints): look up by `(provider, providerId)`;
else by email, appending the link only when no identical
`(provider, providerId)` link exists; else create a fresh account (default
role `user`, unverified) holding the single link. -/
def googleVerifyCallback (now : Nat) (newId : Nat) (store : List UserDoc)
    (pid : String) (emails photos : List String) (accessToken refreshToken : String) :
    OAuthResult × List UserDoc :=
  match findByProviderId store pid with
  | some user =>
    match user.oauthProviders.find?
        (fun o => o.provider == "google" && o.providerId == pid) with
    | some _ => (.success user.id, store)
    | none =>
      let u1 : UserDoc :=
        { user with oauthProviders :=
            user.oauthProviders ++ [oauthLink pid accessToken refreshToken now] }
      (.success user.id, storeSave store u1)
  | none =>
    match emails with
    | [] => (.failure "No email found in profile", store)
    | em :: _ =>
      match findOneByEmail store em with
      | some user =>
        match user.oauthProviders.find?
            (fun o => o.provider == "google" && o.providerId == pid) with
        | some _ => (.success user.id, store)
        | none =>
          let u1 : UserDoc :=
            { user with oauthProviders :=
                user.oauthProviders ++ [oauthLink pid accessToken refreshToken now] }
          (.success user.id, storeSave store u1)
      | none =>
        match photos with
        | [] => (.failure "No photo found in profile", store)
        | ph :: _ =>
          let u : UserDoc :=
            { id := newId, email := normEmail em, avatar := some ph,
              oauthProviders := [oauthLink pid accessToken refreshToken now] }
          (.success newId, store ++ [u])

/-- The legacy Google strategy verify callback (`src/routes/auth.ts`): same
lookup order, but it appends the link unconditionally both when the account
was found by `(provider, providerId)` and when it was found by email. -/
def googleVerifyCallbackLegacy (now : Nat) (newId : Nat) (store : List UserDoc)
    (pid displayName : String) (emails photos : List String)
    (accessToken refreshToken : String) : OAuthResult × List UserDoc :=
  match findByProviderId store pid with
  | some user =>
    let u1 : UserDoc :=
      { user with oauthProviders :=
          user.oauthProviders ++ [oauthLink pid accessToken refreshToken now] }
    (.success user.id, storeSave store u1)
  | none =>
    match emails with
    | [] => (.failure "No email found in profile", store)
    | em :: _ =>
      match findOneByEmail store em with
      | some user =>
        let u1 : UserDoc :=
          { user with oauthProviders :=
              user.oauthProviders ++ [oauthLink pid accessToken refreshToken now] }
        (.success user.id, storeSave store u1)
      | none =>
        match photos with
        | [] => (.failure "No photo found in profile", store)
        | ph :: _ =>
          let u : UserDoc :=
            { id := newId, email := normEmail em, name := some displayName,
              photo := some ph, role := "user",
              oauthProviders := [oauthLink pid accessToken refreshToken now] }
          (.success newId, store ++ [u])

/-! ### Store lemmas -/

theorem map_id_of {α : Type} (l : List α) (f : α → α) (h : ∀ x ∈ l, f x = x) :
    l.map f = l := by
  induction l with
  | nil => rfl
  | cons a as ih => simp [h a (by simp), ih (fun x hx => h x (by simp [hx]))]

theorem storeSave_append_fresh (store : List UserDoc) (n m : UserDoc)
    (hid : m.id = n.id) (hfresh : ∀ u ∈ store, u.id ≠ n.id) :
    storeSave (store ++ [n]) m = store ++ [m] := by
  unfold storeSave
  rw [List.map_append]
  congr 1
  · exact map_id_of _ _ (fun v hv => by
      have : v.id ≠ m.id := hid ▸ hfresh v hv
      simp [this])
  · simp [hid.symm]

theorem find?_save_general (store : List UserDoc) (u u' : UserDoc) (p : UserDoc → Bool)
    (hfind : store.find? p = some u)
    (huniq : ∀ v ∈ store, v.id = u.id → v = u)
    (hid : u'.id = u.id) (hp : p u' = true) :
    (store.map (fun v => if v.id == u'.id then u' else v)).find? p = some u' := by
  induction store with
  | nil => simp at hfind
  | cons a as ih =>
    by_cases hpa : p a = true
    · rw [List.find?_cons_of_pos _ hpa] at hfind
      injection hfind with hau
      subst hau
      simp only [List.map_cons]
      rw [if_pos (show (a.id == u'.id) = true by simp [hid])]
      exact List.find?_cons_of_pos _ hp
    · rw [List.find?_cons_of_neg _ hpa] at hfind
      have haid : a.id ≠ u.id := by
        intro h
        apply hpa
        rw [huniq a (by simp) h]
        exact List.find?_some hfind
      simp only [List.map_cons]
      rw [if_neg (show ¬ (a.id == u'.id) = true by simp [hid, haid])]
      rw [List.find?_cons_of_neg _ hpa]
      exact ih hfind (fun v hv h => huniq v (by simp [hv]) h)

theorem findOneByEmail_save (store : List UserDoc) (u u' : UserDoc) (email : String)
    (hfind : findOneByEmail store email = some u)
    (huniq : ∀ v ∈ store, v.id = u.id → v = u)
    (hid : u'.id = u.id) (hem : u'.email = u.email) :
    findOneByEmail (storeSave store u') email = some u' := by
  have hfind' : store.find? (fun v => v.email == normEmail email) = some u := hfind
  have hpu := List.find?_some hfind'
  have hp : (fun v : UserDoc => v.email == normEmail email) u' = true := by
    simpa [hem] using hpu
  exact find?_save_general store u u' _ hfind' huniq hid hp

theorem find?_storeSave_replaced (store : List UserDoc) (u' : UserDoc)
    (p : UserDoc → Bool) (hnone : ∀ v ∈ store, p v = false)
    (hex : ∃ v ∈ store, v.id = u'.id) (hp : p u' = true) :
    (storeSave store u').find? p = some u' := by
  induction store with
  | nil => simp at hex
  | cons a as ih =>
    unfold storeSave at ih ⊢
    by_cases hid : a.id = u'.id
    · have h1 : (a.id == u'.id) = true := by simp [hid]
      simp only [List.map_cons, h1, if_pos]
      exact List.find?_cons_of_pos _ hp
    · have h1 : (a.id == u'.id) = false := by simp [hid]
      simp only [List.map_cons, h1, Bool.false_eq_true, if_false]
      rw [List.find?_cons_of_neg _ (by simp [hnone a (by simp)])]
      refine ih (fun v hv => hnone v (by simp [hv])) ?_
      obtain ⟨v, hv, hvid⟩ := hex
      rcases List.mem_cons.mp hv with h | h
      · exact absurd (h ▸ hvid) hid
      · exact ⟨v, h, hvid⟩

theorem find?_eq_none_of_any_false {α : Type} {p : α → Bool} {l : List α}
    (h : l.any p = false) : l.find? p = none := by
  rw [List.find?_eq_none]
  intro x hx
  simp [List.any_eq_false.mp h x hx]

/-! ### Characterization of `register` on well-formed input -/

/-- The document `register` leaves in the store on success: the pre-save
hook has hashed the password at work factor 12 and `createVerificationToken`
has stored the bcrypt hash (work factor 1) of the 6-digit code together with
its 10-minute expiry and the last-attempt timestamp. -/
def regUser (newId now : Nat) (code email password : String)
    (firstName lastName phone : Option String) (birthday : Option Nat) : UserDoc :=
  { id := newId, email := normEmail email,
    password := some (bcryptHash 12 password),
    firstName := firstName, lastName := lastName, phone := phone,
    birthday := birthday, role := "user", isEmailVerified := false,
    oauthProviders := [],
    verificationTokenExpires := some (now + 600000),
    lastVerificationAttempt := some now,
    verificationToken := some (bcryptHash 1 code) }

theorem validEmail_ne_empty {email : String} (h : validEmail email = true) :
    email ≠ "" := by
  rintro rfl
  exact absurd h (by decide)

theorem length_ge_ne_empty {s : String} (h : 6 ≤ s.length) : s ≠ "" := by
  rintro rfl
  exact absurd h (by decide)

theorem register_eq (env : Env) (sec : String) (d now newId : Nat)
    (code : String) (store : List UserDoc) (email password : String)
    (firstName lastName phone : Option String) (birthday : Option Nat)
    (hsec : env.jwtSecret = some sec) (hd : env.jwtExpiresDay = some d)
    (hvalid : validEmail email = true) (hlen : 6 ≤ password.length)
    (hfree : findOneByEmail store email = none)
    (hfresh : ∀ u ∈ store, u.id ≠ newId) :
    register env now newId code store email password firstName lastName phone birthday =
      ({ status := 201, success := true, message := "註冊成功，請查收驗證碼郵件",
         token := some { claims := .auth (toString newId) "user", secret := sec,
                         iat := now, exp := now + d },
         userId := some newId, userRole := some "user", userVerified := some false },
       store ++ [regUser newId now code email password firstName lastName phone birthday]) := by
  have hne : ¬ (email = "" ∨ password = "") := by
    rintro (h | h)
    · exact validEmail_ne_empty hvalid h
    · exact length_ge_ne_empty hlen h
  have hlen' : ¬ (password.length < 6) := by omega
  rw [register, if_neg hne, hvalid, if_neg (by simp), if_neg hlen', hfree]
  simp only [preSave, generateToken, hsec, hd, if_true]
  simp only [Prod.mk.injEq]
  exact ⟨trivial, storeSave_append_fresh store _ _ rfl hfresh⟩

/-! ### Characterizations of `login`, `verifyEmail` and `resetPassword` -/

theorem login_success_eq (env : Env) (sec : String) (d now : Nat)
    (store : List UserDoc) (email password : String) (u : UserDoc) (ph : String)
    (hsec : env.jwtSecret = some sec) (hd : env.jwtExpiresDay = some d)
    (hne : email ≠ "") (hpne : password ≠ "")
    (hfind : findOneByEmail store email = some u) (hpw : u.password = some ph)
    (hcmp : bcryptCompare password ph = true) (hver : u.isEmailVerified = true) :
    login env now store email password =
      { status := 200, success := true, message := "",
        token := some { claims := .auth (toString u.id) u.role, secret := sec,
                        iat := now, exp := now + d },
        userId := some u.id, userRole := some u.role, userVerified := some true } := by
  rw [login, if_neg (by rintro (h | h) <;> [exact hne h; exact hpne h]), hfind]
  simp only [hpw, hcmp, if_true, hver, generateToken, hsec, hd]

theorem login_unverified_eq (env : Env) (now : Nat)
    (store : List UserDoc) (email password : String) (u : UserDoc) (ph : String)
    (hne : email ≠ "") (hpne : password ≠ "")
    (hfind : findOneByEmail store email = some u) (hpw : u.password = some ph)
    (hcmp : bcryptCompare password ph = true) (hver : u.isEmailVerified = false) :
    login env now store email password =
      { errResp 403 "請先驗證您的電子郵件" with
          errorCode := some "EMAIL_NOT_VERIFIED", email := some u.email } := by
  rw [login, if_neg (by rintro (h | h) <;> [exact hne h; exact hpne h]), hfind]
  simp only [hpw, hcmp, if_true, hver, Bool.false_eq_true, if_false]

theorem verifyEmail_success_eq (now : Nat) (store : List UserDoc)
    (email code : String) (u : UserDoc) (vte : Nat)
    (hfind : findOneByEmail store email = some u)
    (hvt : u.verificationToken = some (bcryptHash 1 code))
    (hve : u.verificationTokenExpires = some vte)
    (hexp : ¬ vte < now) :
    verifyEmail now store email code =
      ({ status := 200, success := true, message := "電子郵件驗證成功" },
       storeSave store { u with isEmailVerified := true, verificationToken := none,
                                verificationTokenExpires := none }) := by
  rw [verifyEmail, hfind]
  simp only [hvt, hve, if_neg hexp, bcryptCompare_hash 1 code (by decide), if_true]

theorem verifyEmail_noActive_eq (now : Nat) (store : List UserDoc)
    (email code : String) (u : UserDoc)
    (hfind : findOneByEmail store email = some u)
    (hvt : u.verificationToken = none) :
    verifyEmail now store email code = (errResp 400 "無效的驗證請求", store) := by
  rw [verifyEmail, hfind]
  simp only [hvt]

theorem resetPassword_success_eq (now : Nat) (store : List UserDoc)
    (email code newPassword : String) (u : UserDoc) (rte : Nat)
    (hlen : 6 ≤ newPassword.length)
    (hfind : findOneByEmail store email = some u)
    (hrt : u.passwordResetToken = some (bcryptHash 1 code))
    (hre : u.passwordResetExpires = some rte)
    (hexp : ¬ rte < now) :
    resetPassword now store email code newPassword =
      ({ status := 200, success := true, message := "密碼重置成功" },
       storeSave store { u with password := some (bcryptHash 12 newPassword),
                                passwordResetToken := none,
                                passwordResetExpires := none }) := by
  rw [resetPassword,
      if_neg (by rintro (h | h); exacts [length_ge_ne_empty hlen h, by omega]), hfind]
  simp only [hrt, hre, if_neg hexp, bcryptCompare_hash 1 code (by decide), if_true,
             preSave]

theorem resetPassword_noActive_eq (now : Nat) (store : List UserDoc)
    (email code newPassword : String) (u : UserDoc)
    (hlen : 6 ≤ newPassword.length)
    (hfind : findOneByEmail store email = some u)
    (hrt : u.passwordResetToken = none) :
    resetPassword now store email code newPassword =
      (errResp 400 "無效的重置密碼請求", store) := by
  rw [resetPassword,
      if_neg (by rintro (h | h); exacts [length_ge_ne_empty hlen h, by omega]), hfind]
  simp only [hrt]

/-! ### Claim theorems -/

/-- Claim C10: every successful registration returns a 201 response carrying
a signed session token whose claims are the new account's id and role
(`user`), and the token verifies successfully — yet the account stored by
`register` has `isEmailVerified = false`.  An unverified account therefore
immediately holds a usable bearer token. -/
theorem register_issues_token_while_unverified
    (env : Env) (sec : String) (d now newId : Nat) (code : String)
    (store : List UserDoc) (email password : String)
    (firstName lastName phone : Option String) (birthday : Option Nat)
    (hsec : env.jwtSecret = some sec) (hd : env.jwtExpiresDay = some d)
    (hdpos : 0 < d)
    (hvalid : validEmail email = true) (hlen : 6 ≤ password.length)
    (hfree : findOneByEmail store email = none)
    (hfresh : ∀ u ∈ store, u.id ≠ newId) :
    ∃ t : Jwt, ∃ u1 : UserDoc,
      (register env now newId code store email password firstName lastName phone birthday).1.status = 201
      ∧ (register env now newId code store email password firstName lastName phone birthday).1.token = some t
      ∧ t.claims = .auth (toString newId) "user"
      ∧ verifyToken env now t = .ok (.auth (toString newId) "user")
      ∧ (register env now newId code store email password firstName lastName phone birthday).2 = store ++ [u1]
      ∧ u1.isEmailVerified = false := by
  rw [register_eq env sec d now newId code store email password firstName lastName
       phone birthday hsec hd hvalid hlen hfree hfresh]
  refine ⟨_, regUser newId now code email password firstName lastName phone birthday,
          rfl, rfl, rfl, ?_, rfl, rfl⟩
  simp only [verifyToken, hsec, jwtVerify]
  rw [if_neg (by simp), if_neg (by simp; omega)]

/-- Witness for C10 at a concrete registration. -/
theorem register_issues_token_while_unverified_witness :
    ∃ t : Booking.Jwt, ∃ u1 : Booking.UserDoc,
      (Booking.register { jwtSecret := some "s", jwtExpiresDay := some 1000 } 0 1 "123456"
        [] "a@x.com" "secret1" none none none none).1.status = 201
      ∧ (Booking.register { jwtSecret := some "s", jwtExpiresDay := some 1000 } 0 1 "123456"
        [] "a@x.com" "secret1" none none none none).1.token = some t
      ∧ t.claims = .auth (toString 1) "user"
      ∧ Booking.verifyToken { jwtSecret := some "s", jwtExpiresDay := some 1000 } 0 t =
          .ok (.auth (toString 1) "user")
      ∧ (Booking.register { jwtSecret := some "s", jwtExpiresDay := some 1000 } 0 1 "123456"
        [] "a@x.com" "secret1" none none none none).2 = [] ++ [u1]
      ∧ u1.isEmailVerified = false :=
  Booking.register_issues_token_while_unverified
    { jwtSecret := some "s", jwtExpiresDay := some 1000 } "s" 1000 0 1 "123456"
    [] "a@x.com" "secret1" none none none none rfl rfl (by decide) (by decide)
    (by decide) rfl (by simp)

/-- Claim C1: for a registration with a valid email and a password of length
at least six, the password stored on the created account is the bcrypt hash
(work factor 12) produced by the pre-save hook and is never equal to the
plaintext; after the account's email is verified with the issued code, a
`login` with the same email and the same plaintext password succeeds. -/
theorem register_hashes_password_and_login_succeeds
    (env : Env) (sec : String) (d now now2 now3 newId : Nat) (code : String)
    (store : List UserDoc) (email password : String)
    (firstName lastName phone : Option String) (birthday : Option Nat)
    (hsec : env.jwtSecret = some sec) (hd : env.jwtExpiresDay = some d)
    (hvalid : validEmail email = true) (hlen : 6 ≤ password.length)
    (hfree : findOneByEmail store email = none)
    (hfresh : ∀ u ∈ store, u.id ≠ newId)
    (httl : ¬ (now + 600000 < now2)) :
    ∃ u1 u2 : UserDoc,
      (register env now newId code store email password firstName lastName phone birthday).2 = store ++ [u1]
      ∧ u1.password = some (bcryptHash 12 password)
      ∧ u1.password ≠ some password
      ∧ verifyEmail now2 (store ++ [u1]) email code =
          ({ status := 200, success := true, message := "電子郵件驗證成功" }, store ++ [u2])
      ∧ u2.isEmailVerified = true
      ∧ login env now3 (store ++ [u2]) email password =
          { status := 200, success := true, message := "",
            token := some { claims := .auth (toString newId) "user", secret := sec,
                            iat := now3, exp := now3 + d },
            userId := some newId, userRole := some "user", userVerified := some true } := by
  have hreg := register_eq env sec d now newId code store email password firstName
    lastName phone birthday hsec hd hvalid hlen hfree hfresh
  refine ⟨regUser newId now code email password firstName lastName phone birthday,
          { regUser newId now code email password firstName lastName phone birthday with
              isEmailVerified := true, verificationToken := none,
              verificationTokenExpires := none },
          by rw [hreg], rfl, ?_, ?_, rfl, ?_⟩
  · intro h
    injection h with h
    exact bcryptHash_ne 12 password h
  · have hfind1 : findOneByEmail
        (store ++ [regUser newId now code email password firstName lastName phone birthday])
        email = some (regUser newId now code email password firstName lastName phone birthday) := by
      unfold findOneByEmail at hfree ⊢
      rw [List.find?_append, hfree]
      simp [regUser]
    rw [verifyEmail_success_eq now2 _ email code _ (now + 600000) hfind1 rfl rfl httl]
    exact congrArg (Prod.mk _) (storeSave_append_fresh store _ _ rfl hfresh)
  · have hfind2 : findOneByEmail
        (store ++ [{ regUser newId now code email password firstName lastName phone birthday with
                       isEmailVerified := true, verificationToken := none,
                       verificationTokenExpires := none }]) email =
        some { regUser newId now code email password firstName lastName phone birthday with
                 isEmailVerified := true, verificationToken := none,
                 verificationTokenExpires := none } := by
      unfold findOneByEmail at hfree ⊢
      rw [List.find?_append, hfree]
      simp [regUser]
    rw [login_success_eq env sec d now3 _ email password _ (bcryptHash 12 password)
          hsec hd (validEmail_ne_empty hvalid) (length_ge_ne_empty hlen) hfind2 rfl
          (bcryptCompare_hash 12 password (by decide)) rfl]
    rfl

/-- Witness for C1 at a concrete registration / verification / login run. -/
theorem register_hashes_password_and_login_succeeds_witness :
    ∃ u1 u2 : Booking.UserDoc,
      (Booking.register { jwtSecret := some "s", jwtExpiresDay := some 1000 } 0 1 "123456"
        [] "a@x.com" "secret1" none none none none).2 = [] ++ [u1]
      ∧ u1.password = some (Booking.bcryptHash 12 "secret1")
      ∧ u1.password ≠ some "secret1"
      ∧ Booking.verifyEmail 5 ([] ++ [u1]) "a@x.com" "123456" =
          ({ status := 200, success := true, message := "電子郵件驗證成功" }, [] ++ [u2])
      ∧ u2.isEmailVerified = true
      ∧ Booking.login { jwtSecret := some "s", jwtExpiresDay := some 1000 } 7 ([] ++ [u2])
          "a@x.com" "secret1" =
          { status := 200, success := true, message := "",
            token := some { claims := .auth (toString 1) "user", secret := "s",
                            iat := 7, exp := 7 + 1000 },
            userId := some 1, userRole := some "user", userVerified := some true } :=
  Booking.register_hashes_password_and_login_succeeds
    { jwtSecret := some "s", jwtExpiresDay := some 1000 } "s" 1000 0 5 7 1 "123456"
    [] "a@x.com" "secret1" none none none none rfl rfl (by decide) (by decide)
    rfl (by simp) (by decide)

/-- Claim C2: with an active code on record — the verification flow or the
password-reset flow — supplying the correct code succeeds and clears both
the code hash and its expiry; a second call on the resulting store, with any
code (in particular the same one), fails with the no-active-code error
(`無效的驗證請求` / `無效的重置密碼請求`) because the fields were cleared. -/
theorem consumeCode_exactly_once
    (now : Nat) (store : List UserDoc) (email : String) (u : UserDoc)
    (hfind : findOneByEmail store email = some u)
    (huniq : ∀ v ∈ store, v.id = u.id → v = u) :
    (∀ code vte, u.verificationToken = some (bcryptHash 1 code) →
       u.verificationTokenExpires = some vte → ¬ vte < now →
       verifyEmail now store email code =
         ({ status := 200, success := true, message := "電子郵件驗證成功" },
          storeSave store { u with isEmailVerified := true, verificationToken := none,
                                   verificationTokenExpires := none })
       ∧ ∀ now2 code2,
           verifyEmail now2
             (storeSave store { u with isEmailVerified := true, verificationToken := none,
                                       verificationTokenExpires := none }) email code2 =
           (errResp 400 "無效的驗證請求",
            storeSave store { u with isEmailVerified := true, verificationToken := none,
                                     verificationTokenExpires := none }))
    ∧ (∀ code rte newPassword, 6 ≤ newPassword.length →
       u.passwordResetToken = some (bcryptHash 1 code) →
       u.passwordResetExpires = some rte → ¬ rte < now →
       resetPassword now store email code newPassword =
         ({ status := 200, success := true, message := "密碼重置成功" },
          storeSave store { u with password := some (bcryptHash 12 newPassword),
                                   passwordResetToken := none,
                                   passwordResetExpires := none })
       ∧ ∀ now2 code2,
           resetPassword now2
             (storeSave store { u with password := some (bcryptHash 12 newPassword),
                                       passwordResetToken := none,
                                       passwordResetExpires := none }) email code2 newPassword =
           (errResp 400 "無效的重置密碼請求",
            storeSave store { u with password := some (bcryptHash 12 newPassword),
                                     passwordResetToken := none,
                                     passwordResetExpires := none })) := by
  constructor
  · intro code vte hvt hve hexp
    refine ⟨verifyEmail_success_eq now store email code u vte hfind hvt hve hexp, ?_⟩
    intro now2 code2
    have hfind' := findOneByEmail_save store u
      { u with isEmailVerified := true, verificationToken := none,
               verificationTokenExpires := none } email hfind huniq rfl rfl
    exact verifyEmail_noActive_eq now2 _ email code2 _ hfind' rfl
  · intro code rte newPassword hnpw hrt hre hexp
    refine ⟨resetPassword_success_eq now store email code newPassword u rte hnpw hfind
              hrt hre hexp, ?_⟩
    intro now2 code2
    have hfind' := findOneByEmail_save store u
      { u with password := some (bcryptHash 12 newPassword), passwordResetToken := none,
               passwordResetExpires := none } email hfind huniq rfl rfl
    exact resetPassword_noActive_eq now2 _ email code2 newPassword _ hnpw hfind' rfl

/-- An account used by concrete witnesses: both flows hold an active code
(the bcrypt hashes of `111111` and `222222`, both expiring at 700000). -/
def wAccount : UserDoc :=
  { id := 1, email := "a@x.com", password := some (bcryptHash 12 "secret1"),
    role := "user", isEmailVerified := false,
    verificationToken := some (bcryptHash 1 "111111"),
    verificationTokenExpires := some 700000,
    passwordResetToken := some (bcryptHash 1 "222222"),
    passwordResetExpires := some 700000,
    lastVerificationAttempt := some 0 }

/-- Witness for C2 on a concrete account holding both codes. -/
theorem consumeCode_exactly_once_witness :
    (∀ code vte, Booking.wAccount.verificationToken = some (Booking.bcryptHash 1 code) →
       Booking.wAccount.verificationTokenExpires = some vte → ¬ vte < 5 →
       Booking.verifyEmail 5 [Booking.wAccount] "a@x.com" code =
         ({ status := 200, success := true, message := "電子郵件驗證成功" },
          Booking.storeSave [Booking.wAccount]
            { Booking.wAccount with isEmailVerified := true, verificationToken := none,
                                    verificationTokenExpires := none })
       ∧ ∀ now2 code2,
           Booking.verifyEmail now2
             (Booking.storeSave [Booking.wAccount]
               { Booking.wAccount with isEmailVerified := true, verificationToken := none,
                                       verificationTokenExpires := none }) "a@x.com" code2 =
           (Booking.errResp 400 "無效的驗證請求",
            Booking.storeSave [Booking.wAccount]
              { Booking.wAccount with isEmailVerified := true, verificationToken := none,
                                      verificationTokenExpires := none }))
    ∧ (∀ code rte newPassword, 6 ≤ newPassword.length →
       Booking.wAccount.passwordResetToken = some (Booking.bcryptHash 1 code) →
       Booking.wAccount.passwordResetExpires = some rte → ¬ rte < 5 →
       Booking.resetPassword 5 [Booking.wAccount] "a@x.com" code newPassword =
         ({ status := 200, success := true, message := "密碼重置成功" },
          Booking.storeSave [Booking.wAccount]
            { Booking.wAccount with password := some (Booking.bcryptHash 12 newPassword),
                                    passwordResetToken := none,
                                    passwordResetExpires := none })
       ∧ ∀ now2 code2,
           Booking.resetPassword now2
             (Booking.storeSave [Booking.wAccount]
               { Booking.wAccount with password := some (Booking.bcryptHash 12 newPassword),
                                       passwordResetToken := none,
                                       passwordResetExpires := none }) "a@x.com" code2 newPassword =
           (Booking.errResp 400 "無效的重置密碼請求",
            Booking.storeSave [Booking.wAccount]
              { Booking.wAccount with password := some (Booking.bcryptHash 12 newPassword),
                                      passwordResetToken := none,
                                      passwordResetExpires := none })) :=
  Booking.consumeCode_exactly_once 5 [Booking.wAccount] "a@x.com" Booking.wAccount
    rfl (by simp)

/-- Claim C4: when the stored expiry lies strictly in the past, both
`verifyEmail` and `resetPassword` fail with the expiry error for EVERY
supplied code — in particular for the code whose bcrypt hash is the stored
one — because the expiry check runs before the hash comparison; the store
is left unchanged. -/
theorem consumeCode_expired_before_compare
    (now : Nat) (store : List UserDoc) (email : String) (u : UserDoc)
    (hfind : findOneByEmail store email = some u) :
    (∀ vt vte, u.verificationToken = some vt → u.verificationTokenExpires = some vte →
       vte < now →
       ∀ code, verifyEmail now store email code = (errResp 400 "驗證碼已過期", store))
    ∧ (∀ rt rte, u.passwordResetToken = some rt → u.passwordResetExpires = some rte →
       rte < now →
       ∀ code newPassword, 6 ≤ newPassword.length →
         resetPassword now store email code newPassword =
           (errResp 400 "重置密碼連結已過期", store)) := by
  constructor
  · intro vt vte hvt hve hexp code
    rw [verifyEmail, hfind]
    simp only [hvt, hve, if_pos hexp]
  · intro rt rte hrt hre hexp code newPassword hnpw
    rw [resetPassword,
        if_neg (by rintro (h | h); exacts [length_ge_ne_empty hnpw h, by omega]), hfind]
    simp only [hrt, hre, if_pos hexp]

/-- Witness for C4: the account's codes expired at 700000 and the calls
happen at 800000, with the matching codes supplied. -/
theorem consumeCode_expired_before_compare_witness :
    (∀ vt vte, Booking.wAccount.verificationToken = some vt →
       Booking.wAccount.verificationTokenExpires = some vte → vte < 800000 →
       ∀ code, Booking.verifyEmail 800000 [Booking.wAccount] "a@x.com" code =
         (Booking.errResp 400 "驗證碼已過期", [Booking.wAccount]))
    ∧ (∀ rt rte, Booking.wAccount.passwordResetToken = some rt →
       Booking.wAccount.passwordResetExpires = some rte → rte < 800000 →
       ∀ code newPassword, 6 ≤ newPassword.length →
         Booking.resetPassword 800000 [Booking.wAccount] "a@x.com" code newPassword =
           (Booking.errResp 400 "重置密碼連結已過期", [Booking.wAccount])) :=
  Booking.consumeCode_expired_before_compare 800000 [Booking.wAccount] "a@x.com"
    Booking.wAccount rfl

/-- Claim C3: when the shared last-attempt timestamp records an issuance
within the last 10 minutes, the issuing endpoint that the account is
eligible for — `resendVerification` while unverified, `requestPasswordReset`
once verified — fails with the cooldown response carrying a strictly
positive `remainingSeconds`, and the store (hence the stored code) is left
unchanged. -/
theorem issueCode_cooldown_blocks
    (now t : Nat) (code : String) (store : List UserDoc) (email : String)
    (u : UserDoc)
    (hfind : findOneByEmail store email = some u)
    (hlast : u.lastVerificationAttempt = some t)
    (hle : t ≤ now) (hwin : now - t < 600000) :
    0 < remainingSecs now t
    ∧ (u.isEmailVerified = false →
       resendVerification now code store email =
         ({ errResp 400 "請稍後再試" with
              remainingSeconds := some (remainingSecs now t) }, store))
    ∧ (u.isEmailVerified = true →
       requestPasswordReset now code store email =
         ({ errResp 400 "請稍後再試" with
              remainingSeconds := some (remainingSecs now t) }, store)) := by
  refine ⟨by unfold remainingSecs; omega, ?_, ?_⟩
  · intro hver
    rw [resendVerification, hfind]
    simp only [hver, Bool.false_eq_true, if_false, hlast]
    rw [if_pos (show (now : Int) - (t : Int) < 600000 by omega)]
  · intro hver
    rw [requestPasswordReset, hfind]
    simp only [hver, if_true, hlast]
    rw [if_pos (show (now : Int) - (t : Int) < 600000 by omega)]

/-- Witness for C3: the witness account last issued a code at time 0 and the
second issuance attempt happens at time 5, well inside the cooldown. -/
theorem issueCode_cooldown_blocks_witness :
    0 < Booking.remainingSecs 5 0
    ∧ (Booking.wAccount.isEmailVerified = false →
       Booking.resendVerification 5 "999999" [Booking.wAccount] "a@x.com" =
         ({ Booking.errResp 400 "請稍後再試" with
              remainingSeconds := some (Booking.remainingSecs 5 0) }, [Booking.wAccount]))
    ∧ (Booking.wAccount.isEmailVerified = true →
       Booking.requestPasswordReset 5 "999999" [Booking.wAccount] "a@x.com" =
         ({ Booking.errResp 400 "請稍後再試" with
              remainingSeconds := some (Booking.remainingSecs 5 0) }, [Booking.wAccount])) :=
  Booking.issueCode_cooldown_blocks 5 0 "999999" [Booking.wAccount] "a@x.com"
    Booking.wAccount rfl rfl (by decide) (by decide)

/-- Claim C5 (amended): for the `login` of `auth.controller.ts`, an account
whose verification flag is false gets the 403 `EMAIL_NOT_VERIFIED` response
with no token even when the password is correct, and once the flag is true
the same login succeeds with a token whose claims are the account's id and
role (`register` creates accounts with role `user`).  The claim as frozen is
false of the repository's other login (`src/controller/user.ts`), which
never checks the flag — see the counterexample. -/
theorem login_requires_verified_email
    (env : Env) (sec : String) (d now now2 : Nat) (store : List UserDoc)
    (email password : String) (u : UserDoc)
    (hsec : env.jwtSecret = some sec) (hd : env.jwtExpiresDay = some d)
    (hne : email ≠ "") (hpne : password ≠ "")
    (hfind : findOneByEmail store email = some u)
    (hpw : u.password = some (bcryptHash 12 password))
    (huniq : ∀ v ∈ store, v.id = u.id → v = u) :
    (u.isEmailVerified = false →
       login env now store email password =
         { errResp 403 "請先驗證您的電子郵件" with
             errorCode := some "EMAIL_NOT_VERIFIED", email := some u.email }
       ∧ (login env now store email password).token = none)
    ∧ login env now2 (storeSave store { u with isEmailVerified := true }) email password =
        { status := 200, success := true, message := "",
          token := some { claims := .auth (toString u.id) u.role, secret := sec,
                          iat := now2, exp := now2 + d },
          userId := some u.id, userRole := some u.role, userVerified := some true } := by
  constructor
  · intro hver
    have h := login_unverified_eq env now store email password u (bcryptHash 12 password)
      hne hpne hfind hpw (bcryptCompare_hash 12 password (by decide)) hver
    exact ⟨h, by rw [h]; rfl⟩
  · have hfind' := findOneByEmail_save store u { u with isEmailVerified := true }
      email hfind huniq rfl rfl
    rw [login_success_eq env sec d now2 _ email password _ (bcryptHash 12 password)
          hsec hd hne hpne hfind' hpw (bcryptCompare_hash 12 password (by decide)) rfl]

/-- Counterexample for C5 as frozen: the legacy `login` of
`src/controller/user.ts` — one of the claim's cited sources — returns a 200
response carrying a session token for an account whose verification flag is
false, instead of failing with `EmailNotVerified` and issuing no token. -/
theorem legacy_login_ignores_verification_cex :
    Booking.wAccount.isEmailVerified = false
    ∧ (Booking.userLogin { jwtSecret := some "s", jwtExpiresDay := some 1000 } 5
        [Booking.wAccount] "a@x.com" "secret1").status = 200
    ∧ (Booking.userLogin { jwtSecret := some "s", jwtExpiresDay := some 1000 } 5
        [Booking.wAccount] "a@x.com" "secret1").token ≠ none := by
  decide

/-- Witness for C5's amended theorem on a concrete unverified account. -/
theorem login_requires_verified_email_witness :
    (Booking.wAccount.isEmailVerified = false →
       Booking.login { jwtSecret := some "s", jwtExpiresDay := some 1000 } 5
         [Booking.wAccount] "a@x.com" "secret1" =
         { Booking.errResp 403 "請先驗證您的電子郵件" with
             errorCode := some "EMAIL_NOT_VERIFIED", email := some Booking.wAccount.email }
       ∧ (Booking.login { jwtSecret := some "s", jwtExpiresDay := some 1000 } 5
           [Booking.wAccount] "a@x.com" "secret1").token = none)
    ∧ Booking.login { jwtSecret := some "s", jwtExpiresDay := some 1000 } 9
        (Booking.storeSave [Booking.wAccount]
          { Booking.wAccount with isEmailVerified := true }) "a@x.com" "secret1" =
        { status := 200, success := true, message := "",
          token := some { claims := .auth (toString Booking.wAccount.id) Booking.wAccount.role,
                          secret := "s", iat := 9, exp := 9 + 1000 },
          userId := some Booking.wAccount.id, userRole := some Booking.wAccount.role,
          userVerified := some true } :=
  Booking.login_requires_verified_email
    { jwtSecret := some "s", jwtExpiresDay := some 1000 } "s" 1000 5 9
    [Booking.wAccount] "a@x.com" "secret1" Booking.wAccount rfl rfl
    (by decide) (by decide) rfl rfl (by simp)

/-- Claim C6 (amended): for the `login` of `auth.controller.ts`, the
response for "no account with this email" and the response for "password
does not match" are literally the same 401 `INVALID_CREDENTIALS` /
`帳號或密碼錯誤` record, so those two failure causes are indistinguishable.
The claim as frozen is false of the repository's other login
(`src/controller/user.ts`), which returns 404 `此使用者不存在` for the one
and 400 `密碼錯誤` for the other — see the counterexample. -/
theorem login_uniform_invalid_credentials
    (env : Env) (now : Nat) (store : List UserDoc)
    (email1 password1 email2 password2 : String) (u : UserDoc) (ph : String)
    (hne1 : email1 ≠ "") (hpne1 : password1 ≠ "")
    (hne2 : email2 ≠ "") (hpne2 : password2 ≠ "")
    (hmiss : findOneByEmail store email1 = none)
    (hfind : findOneByEmail store email2 = some u)
    (hpw : u.password = some ph)
    (hcmp : bcryptCompare password2 ph = false) :
    login env now store email1 password1 = login env now store email2 password2
    ∧ login env now store email1 password1 =
        { errResp 401 "帳號或密碼錯誤" with errorCode := some "INVALID_CREDENTIALS" } := by
  have h1 : login env now store email1 password1 =
      { errResp 401 "帳號或密碼錯誤" with errorCode := some "INVALID_CREDENTIALS" } := by
    rw [login, if_neg (by rintro (h | h) <;> [exact hne1 h; exact hpne1 h]), hmiss]
  have h2 : login env now store email2 password2 =
      { errResp 401 "帳號或密碼錯誤" with errorCode := some "INVALID_CREDENTIALS" } := by
    rw [login, if_neg (by rintro (h | h) <;> [exact hne2 h; exact hpne2 h]), hfind]
    simp only [hpw, hcmp, Bool.false_eq_true, if_false]
  exact ⟨h1.trans h2.symm, h1⟩

/-- Counterexample for C6 as frozen: the legacy `login` of
`src/controller/user.ts` — one of the claim's cited sources — answers an
unknown email with 404 `此使用者不存在` but a wrong password with 400
`密碼錯誤`, so the two failure causes are distinguishable and accounts can
be enumerated. -/
theorem legacy_login_distinguishes_failures_cex :
    Booking.userLogin { jwtSecret := some "s", jwtExpiresDay := some 1000 } 5
        [Booking.wAccount] "b@x.com" "secret1" = Booking.errResp 404 "此使用者不存在"
    ∧ Booking.userLogin { jwtSecret := some "s", jwtExpiresDay := some 1000 } 5
        [Booking.wAccount] "a@x.com" "wrongpw" = Booking.errResp 400 "密碼錯誤"
    ∧ Booking.userLogin { jwtSecret := some "s", jwtExpiresDay := some 1000 } 5
        [Booking.wAccount] "b@x.com" "secret1" ≠
      Booking.userLogin { jwtSecret := some "s", jwtExpiresDay := some 1000 } 5
        [Booking.wAccount] "a@x.com" "wrongpw" := by
  decide

/-- Witness for C6's amended theorem on a concrete store. -/
theorem login_uniform_invalid_credentials_witness :
    Booking.login { jwtSecret := some "s", jwtExpiresDay := some 1000 } 5
        [Booking.wAccount] "b@x.com" "secret1" =
      Booking.login { jwtSecret := some "s", jwtExpiresDay := some 1000 } 5
        [Booking.wAccount] "a@x.com" "wrongpw"
    ∧ Booking.login { jwtSecret := some "s", jwtExpiresDay := some 1000 } 5
        [Booking.wAccount] "b@x.com" "secret1" =
        { Booking.errResp 401 "帳號或密碼錯誤" with
            errorCode := some "INVALID_CREDENTIALS" } :=
  Booking.login_uniform_invalid_credentials
    { jwtSecret := some "s", jwtExpiresDay := some 1000 } 5 [Booking.wAccount]
    "b@x.com" "secret1" "a@x.com" "wrongpw" Booking.wAccount
    (Booking.bcryptHash 12 "secret1") (by decide) (by decide) (by decide) (by decide)
    (by decide) rfl rfl (by decide)

/-- Counterexample for C9 as frozen: one token fails `jsonwebtoken`
verification with a bad signature and another with expiry — two distinct
causes at the library layer — yet `verifyToken` returns the very same 403
`請重新登入` error for both, so the failure causes are NOT distinguishable
to callers through distinct `InvalidToken` / `ExpiredToken` kinds. -/
theorem verifyToken_collapses_failures_cex :
    Booking.jwtVerify "s" 5
        { claims := .auth "1" "user", secret := "evil", iat := 0, exp := 999999 } =
      .error .invalidSignature
    ∧ Booking.jwtVerify "s" 5
        { claims := .auth "1" "user", secret := "s", iat := 0, exp := 3 } =
      .error .expired
    ∧ Booking.verifyToken { jwtSecret := some "s", jwtExpiresDay := some 1000 } 5
        { claims := .auth "1" "user", secret := "evil", iat := 0, exp := 999999 } =
      Booking.verifyToken { jwtSecret := some "s", jwtExpiresDay := some 1000 } 5
        { claims := .auth "1" "user", secret := "s", iat := 0, exp := 3 } :=
  ⟨rfl, rfl, rfl⟩

/-- Claim C9 (amended): `generateToken` fails exactly when the signing
configuration (`JWT_SECRET` or `JWT_EXPIRES_DAY`) is missing; `verifyToken`
maps EVERY verification failure — bad signature / malformed input and expiry
alike — to one identical operational 403 `請重新登入` error, so the two
failure causes are indistinguishable to callers (both are "require
re-authentication"). -/
theorem token_service_error_contract
    (env : Env) (now : Nat) (sec : String) (t1 t2 : Jwt)
    (hsec : env.jwtSecret = some sec)
    (h1 : t1.secret ≠ sec) (h2 : t2.secret = sec) (h2e : t2.exp ≤ now) :
    (∀ (e : Env) (n : Nat) (u r : String),
       (∃ tok, generateToken e n u r = .ok tok) ↔
         (e.jwtSecret ≠ none ∧ e.jwtExpiresDay ≠ none))
    ∧ jwtVerify sec now t1 = .error .invalidSignature
    ∧ jwtVerify sec now t2 = .error .expired
    ∧ verifyToken env now t1 = .error (.httpError 403 "請重新登入")
    ∧ verifyToken env now t1 = verifyToken env now t2 := by
  have hv1 : jwtVerify sec now t1 = .error .invalidSignature := by
    rw [jwtVerify, if_pos h1]
  have hv2 : jwtVerify sec now t2 = .error .expired := by
    rw [jwtVerify, if_neg (by simp [h2]), if_pos h2e]
  have hw1 : verifyToken env now t1 = .error (.httpError 403 "請重新登入") := by
    rw [verifyToken, hsec]
    simp only [hv1]
  have hw2 : verifyToken env now t2 = .error (.httpError 403 "請重新登入") := by
    rw [verifyToken, hsec]
    simp only [hv2]
  refine ⟨?_, hv1, hv2, hw1, hw1.trans hw2.symm⟩
  intro e n u r
  obtain ⟨s?, d?⟩ := e
  cases s? <;> cases d? <;> simp [generateToken]

/-- Witness for C9's amended theorem on concrete tokens. -/
theorem token_service_error_contract_witness :
    (∀ (e : Booking.Env) (n : Nat) (u r : String),
       (∃ tok, Booking.generateToken e n u r = .ok tok) ↔
         (e.jwtSecret ≠ none ∧ e.jwtExpiresDay ≠ none))
    ∧ Booking.jwtVerify "s" 5
        { claims := .auth "1" "user", secret := "evil", iat := 0, exp := 999999 } =
      .error .invalidSignature
    ∧ Booking.jwtVerify "s" 5
        { claims := .auth "1" "user", secret := "s", iat := 0, exp := 3 } =
      .error .expired
    ∧ Booking.verifyToken { jwtSecret := some "s", jwtExpiresDay := some 1000 } 5
        { claims := .auth "1" "user", secret := "evil", iat := 0, exp := 999999 } =
      .error (.httpError 403 "請重新登入")
    ∧ Booking.verifyToken { jwtSecret := some "s", jwtExpiresDay := some 1000 } 5
        { claims := .auth "1" "user", secret := "evil", iat := 0, exp := 999999 } =
      Booking.verifyToken { jwtSecret := some "s", jwtExpiresDay := some 1000 } 5
        { claims := .auth "1" "user", secret := "s", iat := 0, exp := 3 } :=
  Booking.token_service_error_contract
    { jwtSecret := some "s", jwtExpiresDay := some 1000 } 5 "s"
    { claims := .auth "1" "user", secret := "evil", iat := 0, exp := 999999 }
    { claims := .auth "1" "user", secret := "s", iat := 0, exp := 3 }
    rfl (by decide) rfl (by decide)

/-- Counterexample for C7 as frozen: the legacy Google strategy of
`src/routes/auth.ts` — one of the claim's cited sources — called twice with
identical arguments leaves an account carrying TWO OAuthLinks with the same
`(provider, externalId)` pair `("google","g123")`, because the
found-by-providerId branch appends unconditionally. -/
theorem legacy_google_verify_duplicates_link_cex :
    ((Booking.googleVerifyCallbackLegacy 0 1
        (Booking.googleVerifyCallbackLegacy 0 1 [] "g123" "Alice" ["a@x.com"] ["p"]
          "at" "rt").2
        "g123" "Alice" ["a@x.com"] ["p"] "at" "rt").2).any
      (fun u => 2 ≤ u.oauthProviders.countP
        (fun o => o.provider == "google" && o.providerId == "g123")) = true := by
  decide

/-- Claim C7 (amended): the current Google strategy (the one guarding
against duplicate `(provider, providerId)` links before appending) is
idempotent: a second call with identical arguments returns the same result
and leaves the store exactly as the first call left it — no second account
is created and no duplicate link is appended.  The claim as frozen is false
of the legacy strategy in `src/routes/auth.ts` — see the counterexample. -/
theorem google_verify_idempotent
    (now newId : Nat) (store : List UserDoc) (pid : String)
    (emails photos : List String) (aTok rTok : String) (r : OAuthResult)
    (s : List UserDoc)
    (h : googleVerifyCallback now newId store pid emails photos aTok rTok = (r, s)) :
    googleVerifyCallback now newId s pid emails photos aTok rTok = (r, s) := by
  cases hA : findByProviderId store pid with
  | some user =>
    have hprop : hasGoogleLink user pid = true := by
      have hA' : store.find? (fun u => hasGoogleLink u pid) = some user := hA
      simpa using List.find?_some hA'
    have hfsome : (user.oauthProviders.find?
        (fun o => o.provider == "google" && o.providerId == pid)).isSome := by
      rw [List.find?_isSome]
      simpa [hasGoogleLink] using hprop
    obtain ⟨o, ho⟩ := Option.isSome_iff_exists.mp hfsome
    have eq1 : googleVerifyCallback now newId store pid emails photos aTok rTok =
        (.success user.id, store) := by
      rw [googleVerifyCallback.eq_def]
      simp only [hA, ho]
    rw [eq1] at h
    injection h with hr hs
    subst hr; subst hs
    exact eq1
  | none =>
    cases emails with
    | nil =>
      have eq1 : googleVerifyCallback now newId store pid [] photos aTok rTok =
          (.failure "No email found in profile", store) := by
        rw [googleVerifyCallback.eq_def]
        simp only [hA]
      rw [eq1] at h
      injection h with hr hs
      subst hr; subst hs
      exact eq1
    | cons em rest =>
      cases hB : findOneByEmail store em with
      | some user =>
        have humem : user ∈ store := by
          have hB' : store.find? (fun v => v.email == normEmail em) = some user := hB
          exact List.mem_of_find?_eq_some hB'
        have hnolink : hasGoogleLink user pid = false := by
          have hA' : store.find? (fun u => hasGoogleLink u pid) = none := hA
          simpa using List.find?_eq_none.mp hA' user humem
        have hfnone : user.oauthProviders.find?
            (fun o => o.provider == "google" && o.providerId == pid) = none :=
          find?_eq_none_of_any_false (by simpa [hasGoogleLink] using hnolink)
        have eq1 : googleVerifyCallback now newId store pid (em :: rest) photos aTok rTok =
            (.success user.id,
             storeSave store { user with oauthProviders :=
               user.oauthProviders ++ [oauthLink pid aTok rTok now] }) := by
          rw [googleVerifyCallback.eq_def]
          simp only [hA, hB, hfnone]
        rw [eq1] at h
        injection h with hr hs
        subst hr; subst hs
        have hA2 : findByProviderId
            (storeSave store { user with oauthProviders :=
               user.oauthProviders ++ [oauthLink pid aTok rTok now] }) pid =
            some { user with oauthProviders :=
               user.oauthProviders ++ [oauthLink pid aTok rTok now] } := by
          unfold findByProviderId
          apply find?_storeSave_replaced
          · intro v hv
            have hA' : store.find? (fun u => hasGoogleLink u pid) = none := hA
            simpa using List.find?_eq_none.mp hA' v hv
          · exact ⟨user, humem, rfl⟩
          · simp [hasGoogleLink, oauthLink]
        have hfsome2 : ({ user with oauthProviders :=
               user.oauthProviders ++ [oauthLink pid aTok rTok now] }).oauthProviders.find?
            (fun o => o.provider == "google" && o.providerId == pid) =
            some (oauthLink pid aTok rTok now) := by
          show (user.oauthProviders ++ [oauthLink pid aTok rTok now]).find? _ = _
          rw [List.find?_append, hfnone]
          simp [oauthLink]
        rw [googleVerifyCallback.eq_def]
        simp only [hA2, hfsome2]
      | none =>
        cases photos with
        | nil =>
          have eq1 : googleVerifyCallback now newId store pid (em :: rest) [] aTok rTok =
              (.failure "No photo found in profile", store) := by
            rw [googleVerifyCallback.eq_def]
            simp only [hA, hB]
          rw [eq1] at h
          injection h with hr hs
          subst hr; subst hs
          exact eq1
        | cons ph prest =>
          have eq1 : googleVerifyCallback now newId store pid (em :: rest)
              (ph :: prest) aTok rTok =
              (.success newId,
               store ++ [{ id := newId, email := normEmail em, avatar := some ph,
                           oauthProviders := [oauthLink pid aTok rTok now] }]) := by
            rw [googleVerifyCallback.eq_def]
            simp only [hA, hB]
          rw [eq1] at h
          injection h with hr hs
          subst hr; subst hs
          have hA2 : findByProviderId
              (store ++ [{ id := newId, email := normEmail em, avatar := some ph,
                           oauthProviders := [oauthLink pid aTok rTok now] } ]) pid =
              some { id := newId, email := normEmail em, avatar := some ph,
                     oauthProviders := [oauthLink pid aTok rTok now] } := by
            unfold findByProviderId at hA ⊢
            rw [List.find?_append, hA]
            simp [hasGoogleLink, oauthLink]
          rw [googleVerifyCallback.eq_def]
          simp only [hA2]
          simp [oauthLink]

/-- Witness for C7's amended theorem: a first call on the empty store
creates the account; the second identical call resolves it via the
`(provider, providerId)` lookup and changes nothing. -/
theorem google_verify_idempotent_witness :
    Booking.googleVerifyCallback 0 1
        [{ id := 1, email := "a@x.com", avatar := some "p",
           oauthProviders := [Booking.oauthLink "g123" "at" "rt" 0] }]
        "g123" ["a@x.com"] ["p"] "at" "rt" =
      (.success 1,
       [{ id := 1, email := "a@x.com", avatar := some "p",
          oauthProviders := [Booking.oauthLink "g123" "at" "rt" 0] }]) :=
  Booking.google_verify_idempotent 0 1 [] "g123" ["a@x.com"] ["p"] "at" "rt"
    (.success 1)
    [{ id := 1, email := "a@x.com", avatar := some "p",
       oauthProviders := [Booking.oauthLink "g123" "at" "rt" 0] }]
    (by decide)

/-- Claim C8: when the current Google strategy finds no account by
`(provider, providerId)` but finds a password-based account by email, it
appends the new OAuthLink to that account's embedded list and returns that
same account; every other field — in particular the stored password hash —
is untouched (the record update below changes only `oauthProviders`, and the
save does not re-run the password hashing because the password path was not
modified). -/
theorem google_verify_links_existing_account
    (now newId : Nat) (store : List UserDoc) (pid em : String)
    (emailsRest photos : List String) (aTok rTok : String) (u : UserDoc) (ph : String)
    (hA : findByProviderId store pid = none)
    (hB : findOneByEmail store em = some u)
    (hpw : u.password = some ph) :
    googleVerifyCallback now newId store pid (em :: emailsRest) photos aTok rTok =
      (.success u.id,
       storeSave store { u with oauthProviders :=
         u.oauthProviders ++ [oauthLink pid aTok rTok now] })
    ∧ ({ u with oauthProviders :=
          u.oauthProviders ++ [oauthLink pid aTok rTok now] }).password = some ph := by
  have humem : u ∈ store := by
    have hB' : store.find? (fun v => v.email == normEmail em) = some u := hB
    exact List.mem_of_find?_eq_some hB'
  have hnolink : hasGoogleLink u pid = false := by
    have hA' : store.find? (fun v => hasGoogleLink v pid) = none := hA
    simpa using List.find?_eq_none.mp hA' u humem
  have hfnone : u.oauthProviders.find?
      (fun o => o.provider == "google" && o.providerId == pid) = none :=
    find?_eq_none_of_any_false (by simpa [hasGoogleLink] using hnolink)
  constructor
  · rw [googleVerifyCallback.eq_def]
    simp only [hA, hB, hfnone]
  · exact hpw

/-- Witness for C8: linking `("google","g123")` onto the existing password
account leaves its bcrypt password hash in place. -/
theorem google_verify_links_existing_account_witness :
    Booking.googleVerifyCallback 3 9 [Booking.wAccount] "g123" ["a@x.com"] ["p"]
        "at" "rt" =
      (.success Booking.wAccount.id,
       Booking.storeSave [Booking.wAccount]
         { Booking.wAccount with oauthProviders :=
             Booking.wAccount.oauthProviders ++ [Booking.oauthLink "g123" "at" "rt" 3] })
    ∧ ({ Booking.wAccount with oauthProviders :=
          Booking.wAccount.oauthProviders ++ [Booking.oauthLink "g123" "at" "rt" 3] }).password =
        some (Booking.bcryptHash 12 "secret1") :=
  Booking.google_verify_links_existing_account 3 9 [Booking.wAccount] "g123" "a@x.com"
    [] ["p"] "at" "rt" Booking.wAccount (Booking.bcryptHash 12 "secret1")
    rfl rfl rfl

end Booking

-- sanity checks: the embedded validators and hasher compute as expected
example : Booking.validEmail "a@x.com" = true := by decide
example : Booking.validEmail "" = false := by decide
example : Booking.validEmail "a@x" = false := by decide
example : Booking.validEmail "first.last@mail.example.tw" = true := by decide
example : Booking.normEmail " A@X.Com " = "a@x.com" := by decide
example : Booking.bcryptCompare "secret1" (Booking.bcryptHash 12 "secret1") = true := by decide
example : Booking.bcryptCompare "wrong" (Booking.bcryptHash 12 "secret1") = false := by decide
example : (∀ x ∈ (Nat.repr 12).data, x ≠ '$') := by decide
